import Mathlib

/-!
Shallow embedding of `src/Smart_Home_Controller.py`, a single-process
smart-home dashboard.  The mutable program state (four device records and
an action log) becomes an explicit `AppState` record, each event handler
becomes a state-transforming function, and the view router becomes a
function from a route string to a list of rendered views.  Strings are
modelled as Lean `String`, numeric slider values as `Int` (the sliders are
configured with integral steps: thermostat min 10, max 30, 20 divisions;
fan min 0, max 3, 3 divisions).  Wall-clock time, read by `log_action` via
`time.strftime`, is passed in as an explicit `String` parameter.
-/

/-- `class Device` of the source: `id`, `name`, `type`, `is_on` (on/off
devices), `slider_value` (slider devices, `None` when absent). -/
structure Device where
  id : String
  name : String
  type : String
  is_on : Bool
  slider_value : Option Int
deriving DecidableEq, Repr

/-- One row of `action_log`: the dict `\x7btime, device, action, user\x7d`
built in `log_action`. -/
structure LogEntry where
  time : String
  device : String
  action : String
  user : String
deriving DecidableEq, Repr

/-- The mutable state closed over by `main`: the four device objects and
the `action_log` list. -/
structure AppState where
  light : Device
  door : Device
  thermostat : Device
  fan : Device
  action_log : List LogEntry
deriving DecidableEq, Repr

/-- The seeded state built at the top of `main`: light off, door locked
(`is_on = True`), thermostat at 22, fan at 0, empty log. -/
def initState : AppState :=
  { light := ⟨"light1", "Living Room Light", "light", false, none⟩
    door := ⟨"door1", "Front Door", "door", true, none⟩
    thermostat := ⟨"thermo1", "Thermostat", "thermostat", false, some 22⟩
    fan := ⟨"fan1", "Ceiling Fan", "fan", false, some 0⟩
    action_log := [] }

/-- Key list of the dict `devices = \x7bd.id: d for d in [light, door,
thermostat, fan]\x7d`.  The ids are never reassigned by any handler, so
reading them from the current state coincides with the dict built at
startup. -/
def registryKeys (s : AppState) : List String :=
  [s.light.id, s.door.id, s.thermostat.id, s.fan.id]

/-- `current_power_watts`: 10 W for the light when on, nothing for the
door, `80 + max(0, setpoint - 20) * 5` for the thermostat, `speed * 30`
for the fan. -/
def current_power_watts (s : AppState) : Int :=
  let power : Int := 0
  let power := if s.light.is_on then power + 10 else power
  let power :=
    match s.thermostat.slider_value with
    | some v => power + (80 + max 0 (v - 20) * 5)
    | none => power
  let power :=
    match s.fan.slider_value with
    | some v => power + v * 30
    | none => power
  power

/-- The log update inside `log_action`: `action_log.append(...)` followed
by `del action_log[0 : len(action_log) - 50]` when the length exceeds
50. -/
def append_and_cap (log : List LogEntry) (e : LogEntry) : List LogEntry :=
  let log2 := log ++ [e]
  if log2.length > 50 then log2.drop (log2.length - 50) else log2

/-- `log_action(device, action, user="User")` at a given wall-clock time
`t`: appends the entry and truncates to the most recent 50. -/
def log_action (s : AppState) (t : String) (d : Device) (action : String)
    (user : String) : AppState :=
  let entry : LogEntry :=
    { time := t, device := d.id, action := action, user := user }
  { s with action_log := append_and_cap s.action_log entry }

/-- `toggle_light`: flips `light.is_on`, logs "Turn ON"/"Turn OFF" for the
new state. -/
def toggle_light (t : String) (s : AppState) : AppState :=
  let light2 := { s.light with is_on := !s.light.is_on }
  let action := if light2.is_on then "Turn ON" else "Turn OFF"
  log_action { s with light := light2 } t light2 action "User"

/-- `toggle_door`: flips `door.is_on` (True = locked), logs
"Lock"/"Unlock" for the new state. -/
def toggle_door (t : String) (s : AppState) : AppState :=
  let door2 := { s.door with is_on := !s.door.is_on }
  let action := if door2.is_on then "Lock" else "Unlock"
  log_action { s with door := door2 } t door2 action "User"

/-- Rendering of the Python format `f"\x7bv:.1f\x7d"` at the integral
slider values the thermostat slider produces. -/
def formatOneDecimal (v : Int) : String :=
  toString v ++ ".0"

/-- `thermo_changed`: stores the slider value and logs
`Set to \x7bvalue:.1f\x7d 째C` (the degree text as it appears in the
source). -/
def thermo_changed (t : String) (v : Int) (s : AppState) : AppState :=
  let th2 := { s.thermostat with slider_value := some v }
  log_action { s with thermostat := th2 } t th2
    ("Set to " ++ formatOneDecimal v ++ " 째C") "User"

/-- `fan_changed`: stores `int(e.control.value)` and logs
`Set speed to \x7bvalue\x7d`. -/
def fan_changed (t : String) (v : Int) (s : AppState) : AppState :=
  let f2 := { s.fan with slider_value := some v }
  log_action { s with fan := f2 } t f2
    ("Set speed to " ++ toString v) "User"

/-- The recent-actions selection in `build_device_details_view`:
`[a for a in reversed(action_log) if a["device"] == device.id][0:10]`. -/
def recentFor (log : List LogEntry) (device_id : String) : List LogEntry :=
  (log.reverse.filter (fun a => a.device == device_id)).take 10

/-- Python `s.startswith(p)` on character lists (first argument the
pattern). -/
def startsWithList : List Char → List Char → Bool
  | [], _ => true
  | _ :: _, [] => false
  | p :: ps, x :: xs => p == x && startsWithList ps xs

/-- Python `s.split(c)` on character lists, accumulator style: splits at
every occurrence of `c`, keeping empty segments. -/
def splitOnCharAux (c : Char) : List Char → List Char → List (List Char)
  | [], acc => [acc.reverse]
  | x :: xs, acc =>
      if x == c then acc.reverse :: splitOnCharAux c xs []
      else splitOnCharAux c xs (x :: acc)

/-- Python `route.split("/")`. -/
def splitOnChar (c : Char) (s : List Char) : List (List Char) :=
  splitOnCharAux c s []

/-- Python `route.split("/")[-1]` (the split list is never empty). -/
def lastSegment (route : String) : String :=
  String.mk ((splitOnChar '/' route.data).getLastD [])

/-- The three screens the router can render.  A device-detail view
carries the device id and the recent-actions list computed by
`build_device_details_view`. -/
inductive View where
  | overview : View
  | statistics : View
  | deviceDetail : String → List LogEntry → View
deriving DecidableEq, Repr

/-- `route_change`: clears `page.views` (the `views` argument is
discarded), then appends the view selected by the route: overview for
"/", statistics for "/statistics", and for routes starting with
"/device/" the detail view when the extracted id is a registry key, the
overview view otherwise; any other route appends nothing.  The handler
never writes to the devices or the log, so the state is returned
unchanged. -/
def route_change (s : AppState) (_views : List View) (route : String) :
    AppState × List View :=
  if route = "/" then (s, [View.overview])
  else if route = "/statistics" then (s, [View.statistics])
  else if startsWithList "/device/".data route.data then
    let device_id := lastSegment route
    if device_id ∈ registryKeys s then
      (s, [View.deviceDetail device_id (recentFor s.action_log device_id)])
    else (s, [View.overview])
  else (s, [])

/-- One user-visible operation of the program. -/
inductive Event where
  | toggleLight : String → Event
  | toggleDoor : String → Event
  | thermoChanged : String → Int → Event
  | fanChanged : String → Int → Event
  | navigate : String → Event
deriving DecidableEq, Repr

/-- The state transition performed by each operation (navigation keeps
the state; its rendered views are not part of `AppState`). -/
def step (s : AppState) : Event → AppState
  | Event.toggleLight t => toggle_light t s
  | Event.toggleDoor t => toggle_door t s
  | Event.thermoChanged t v => thermo_changed t v s
  | Event.fanChanged t v => fan_changed t v s
  | Event.navigate r => (route_change s [] r).1

/-! ## Helper lemmas -/

lemma append_and_cap_length (l : List LogEntry) (e : LogEntry) :
    (append_and_cap l e).length = min (l.length + 1) 50 := by
  simp only [append_and_cap]
  split_ifs with h <;> simp at h ⊢ <;> omega

lemma foldl_append_and_cap (es : List LogEntry) :
    ∀ l : List LogEntry, l.length ≤ 50 →
      es.foldl append_and_cap l = (l ++ es).drop ((l ++ es).length - 50) := by
  induction es with
  | nil =>
      intro l h
      simp [Nat.sub_eq_zero_of_le h]
  | cons e es ih =>
      intro l h
      have hlen : (append_and_cap l e).length ≤ 50 := by
        rw [append_and_cap_length]; omega
      rw [List.foldl_cons, ih _ hlen]
      by_cases hfull : l.length + 1 > 50
      · have hl : l.length = 50 := by omega
        have hcap : append_and_cap l e = (l ++ [e]).drop 1 := by
          simp only [append_and_cap]
          rw [if_pos (by simp [hl])]
          simp [hl]
        rw [hcap]
        have hone : (1 : ℕ) ≤ (l ++ [e]).length := by simp
        rw [← List.drop_append_of_le_length hone, List.drop_drop]
        have : (l ++ [e]) ++ es = l ++ e :: es := by simp
        rw [this]
        congr 1
        simp only [List.length_drop, List.length_append, List.length_cons, hl]
        omega
      · have hcap : append_and_cap l e = l ++ [e] := by
          simp only [append_and_cap]
          rw [if_neg (by simp; omega)]
        rw [hcap]
        have : (l ++ [e]) ++ es = l ++ e :: es := by simp
        rw [this]

lemma startsWithList_self_append (p x : List Char) :
    startsWithList p (p ++ x) = true := by
  induction p with
  | nil => rfl
  | cons c cs ih => simp [startsWithList, ih]

lemma splitOnCharAux_ne_nil (c : Char) (cs : List Char) :
    ∀ acc, splitOnCharAux c cs acc ≠ [] := by
  induction cs with
  | nil => intro acc; simp [splitOnCharAux]
  | cons x xs ih =>
      intro acc
      simp only [splitOnCharAux]
      split_ifs
      · simp
      · exact ih _

lemma splitOnCharAux_no_sep (c : Char) (cs : List Char)
    (h : ∀ ch ∈ cs, ch ≠ c) :
    ∀ acc, splitOnCharAux c cs acc = [acc.reverse ++ cs] := by
  induction cs with
  | nil => intro acc; simp [splitOnCharAux]
  | cons x xs ih =>
      intro acc
      have hx : x ≠ c := h x (by simp)
      have hxs : ∀ ch ∈ xs, ch ≠ c := fun ch hch => h ch (by simp [hch])
      simp only [splitOnCharAux]
      rw [if_neg (by simpa using hx), ih hxs]
      simp

lemma getLastD_splitOnCharAux_sep (c : Char) (seg : List Char)
    (hid : ∀ ch ∈ seg, ch ≠ c) :
    ∀ (xs acc : List Char),
      (splitOnCharAux c (xs ++ c :: seg) acc).getLastD [] = seg := by
  intro xs
  induction xs with
  | nil =>
      intro acc
      simp only [List.nil_append, splitOnCharAux]
      rw [if_pos (by simp), splitOnCharAux_no_sep c seg hid []]
      simp [List.getLastD_cons]
  | cons x xs ih =>
      intro acc
      simp only [List.cons_append, splitOnCharAux]
      split_ifs with hx
      · rw [List.getLastD_cons]
        have hne := splitOnCharAux_ne_nil c (xs ++ c :: seg) []
        cases hl : splitOnCharAux c (xs ++ c :: seg) [] with
        | nil => exact absurd hl hne
        | cons y ys =>
            have hy := ih []
            rw [hl] at hy
            simpa [List.getLastD_cons] using hy
      · exact ih (x :: acc)

lemma lastSegment_device (id : String) (h : ∀ ch ∈ id.data, ch ≠ '/') :
    lastSegment ("/device/" ++ id) = id := by
  have hdata : ("/device/" ++ id).data = "/device".data ++ '/' :: id.data := by
    rw [String.data_append]
    rfl
  have h2 := getLastD_splitOnCharAux_sep '/' id.data h "/device".data []
  unfold lastSegment splitOnChar
  rw [hdata, h2]

lemma route_change_fst (s : AppState) (vs : List View) (r : String) :
    (route_change s vs r).1 = s := by
  simp only [route_change]
  split_ifs <;> rfl

lemma registryKeys_step (s : AppState) (e : Event) :
    registryKeys (step s e) = registryKeys s := by
  cases e <;>
    simp [step, toggle_light, toggle_door, thermo_changed, fan_changed,
      log_action, registryKeys, route_change_fst]

lemma registryKeys_foldl (es : List Event) :
    ∀ s : AppState, registryKeys (es.foldl step s) = registryKeys s := by
  induction es with
  | nil => intro s; rfl
  | cons e es ih => intro s; rw [List.foldl_cons, ih, registryKeys_step]

/-! ## Claims -/

/-- C1: whenever the thermostat and fan carry numeric slider values,
`current_power_watts` is exactly (10 if the light is on else 0) + 0 for
the door + (80 + max(0, setpoint - 20) * 5) + fan speed * 30. -/
theorem current_power_watts_formula :
    ∀ (s : AppState) (vt vf : Int),
      s.thermostat.slider_value = some vt →
      s.fan.slider_value = some vf →
      current_power_watts s =
        ((if s.light.is_on then (10 : Int) else 0) + 0)
          + (80 + max 0 (vt - 20) * 5) + vf * 30 := by
  intro s vt vf ht hf
  simp only [current_power_watts, ht, hf]
  cases hl : s.light.is_on
  · simp
  · simp

/-- Witness for C1 at the seeded state (setpoint 22, fan speed 0). -/
theorem current_power_watts_formula_witness :
    current_power_watts initState =
      ((if initState.light.is_on then (10 : Int) else 0) + 0)
        + (80 + max 0 ((22 : Int) - 20) * 5) + (0 : Int) * 30 :=
  current_power_watts_formula initState 22 0 rfl rfl

/-- C5: the seeded state draws 90 W; toggling the light on gives 100 W;
additionally setting the fan to 3 gives 190 W. -/
theorem seeded_power_values :
    current_power_watts initState = 90 ∧
    current_power_watts (toggle_light "12:00:00" initState) = 100 ∧
    current_power_watts
        (fan_changed "12:00:01" 3 (toggle_light "12:00:00" initState))
      = 190 := by
  exact ⟨by decide, by decide, by decide⟩

/-- C6: `current_power_watts` is a pure function of the four device
states: it performs no mutation in the embedding, and any two states
agreeing on the four devices (whatever their action logs) get the same
value. -/
theorem current_power_watts_pure :
    ∀ s₁ s₂ : AppState,
      s₁.light = s₂.light → s₁.door = s₂.door →
      s₁.thermostat = s₂.thermostat → s₁.fan = s₂.fan →
      current_power_watts s₁ = current_power_watts s₂ := by
  intro s₁ s₂ h1 h2 h3 h4
  simp [current_power_watts, h1, h3, h4]

/-- Witness for C6: the seeded state and the seeded state with a
different action log give the same power value. -/
theorem current_power_watts_pure_witness :
    current_power_watts initState =
      current_power_watts
        { initState with
            action_log := [⟨"00:00:00", "light1", "Turn ON", "User"⟩] } :=
  current_power_watts_pure _ _ rfl rfl rfl rfl

/-- C3: the recent-actions selection of the device-detail view returns
at most 10 entries, only entries of the requested device, and lists them
newest first (the reverse of insertion order, truncated to 10). -/
theorem recentFor_spec :
    ∀ (log : List LogEntry) (id : String),
      (recentFor log id).length ≤ 10 ∧
      (∀ a ∈ recentFor log id, a.device = id) ∧
      recentFor log id =
        ((log.filter (fun a => a.device == id)).reverse).take 10 := by
  intro log id
  refine ⟨?_, ?_, ?_⟩
  · simp [recentFor, List.length_take]
  · intro a ha
    have h1 : a ∈ (log.reverse.filter (fun a => a.device == id)) :=
      (List.take_sublist _ _).mem ha
    have h2 := (List.mem_filter.mp h1).2
    simpa using h2
  · simp [recentFor, List.filter_reverse]

/-- C2: each `log_action` call updates the log by appending one entry and
capping at 50, and any sequence of appends starting from the empty log
leaves exactly the most recent `min(n, 50)` entries in insertion order
(for 51 appends: the first-appended entry is dropped, 50 remain). -/
theorem log_action_cap :
    (∀ (s : AppState) (t : String) (d : Device) (a u : String),
        (log_action s t d a u).action_log =
          append_and_cap s.action_log ⟨t, d.id, a, u⟩) ∧
    (∀ es : List LogEntry,
        (es.foldl append_and_cap []).length ≤ 50 ∧
        es.foldl append_and_cap [] = es.drop (es.length - 50)) := by
  constructor
  · intro s t d a u
    rfl
  · intro es
    have h := foldl_append_and_cap es [] (by simp)
    simp only [List.nil_append] at h
    refine ⟨?_, h⟩
    rw [h, List.length_drop]
    omega

/-- C7: every operation preserves the registry key list and every
device's `id` and `type`; folding any event sequence from the seeded
state keeps the keys exactly at the four seeded ids. -/
theorem registry_fixed :
    (∀ (s : AppState) (e : Event),
        registryKeys (step s e) = registryKeys s ∧
        (step s e).light.id = s.light.id ∧
        (step s e).door.id = s.door.id ∧
        (step s e).thermostat.id = s.thermostat.id ∧
        (step s e).fan.id = s.fan.id ∧
        (step s e).light.type = s.light.type ∧
        (step s e).door.type = s.door.type ∧
        (step s e).thermostat.type = s.thermostat.type ∧
        (step s e).fan.type = s.fan.type) ∧
    (∀ es : List Event,
        registryKeys (es.foldl step initState) =
          ["light1", "door1", "thermo1", "fan1"]) := by
  constructor
  · intro s e
    cases e <;>
      simp [step, toggle_light, toggle_door, thermo_changed, fan_changed,
        log_action, registryKeys, route_change_fst]
  · intro es
    rw [registryKeys_foldl]
    rfl

/-- C8: the four state-changing handlers are total functions of the
state and the well-typed event value: each sets exactly the advertised
field of its device and records one (capped) log entry; no error branch
exists. -/
theorem handlers_total :
    ∀ (s : AppState) (t : String) (v : Int),
      (toggle_light t s).light.is_on = (!s.light.is_on) ∧
      (toggle_door t s).door.is_on = (!s.door.is_on) ∧
      (thermo_changed t v s).thermostat.slider_value = some v ∧
      (fan_changed t v s).fan.slider_value = some v ∧
      (toggle_light t s).action_log.length = min (s.action_log.length + 1) 50 ∧
      (toggle_door t s).action_log.length = min (s.action_log.length + 1) 50 ∧
      (thermo_changed t v s).action_log.length
        = min (s.action_log.length + 1) 50 ∧
      (fan_changed t v s).action_log.length
        = min (s.action_log.length + 1) 50 := by
  intro s t v
  refine ⟨rfl, rfl, rfl, rfl, ?_, ?_, ?_, ?_⟩ <;>
    simp [toggle_light, toggle_door, thermo_changed, fan_changed,
      log_action, append_and_cap_length]

/-- A reachable state whose action log is already at the 50-entry cap:
the seeded state after 50 thermostat-slider events. -/
def fullLogState : AppState :=
  (List.replicate 50 (Event.thermoChanged "00:00:00" 25)).foldl step initState

set_option maxRecDepth 8000 in
/-- C9 counterexample: from a state whose log already holds 50 entries,
toggling the light twice restores the light and the power value but the
log does not grow by two entries (it stays at 50), so the claim as
stated fails. -/
theorem toggle_twice_counterexample :
    ¬ ((toggle_light "00:00:02" (toggle_light "00:00:01" fullLogState)).light.is_on
          = fullLogState.light.is_on ∧
        current_power_watts
            (toggle_light "00:00:02" (toggle_light "00:00:01" fullLogState))
          = current_power_watts fullLogState ∧
        (toggle_light "00:00:02"
              (toggle_light "00:00:01" fullLogState)).action_log.length
          = fullLogState.action_log.length + 2) := by
  decide

/-- C9 amended: toggling the light (resp. door) twice restores that
device's on/off field and the power estimate from any state, and the log
length becomes `min(old + 2, 50)` — growth by exactly two entries
whenever the log held at most 48 entries. -/
theorem toggle_twice_restores :
    ∀ (s : AppState) (t₁ t₂ : String),
      (toggle_light t₂ (toggle_light t₁ s)).light.is_on = s.light.is_on ∧
      current_power_watts (toggle_light t₂ (toggle_light t₁ s))
        = current_power_watts s ∧
      (toggle_door t₂ (toggle_door t₁ s)).door.is_on = s.door.is_on ∧
      current_power_watts (toggle_door t₂ (toggle_door t₁ s))
        = current_power_watts s ∧
      (toggle_light t₂ (toggle_light t₁ s)).action_log.length
        = min (s.action_log.length + 2) 50 ∧
      (toggle_door t₂ (toggle_door t₁ s)).action_log.length
        = min (s.action_log.length + 2) 50 := by
  intro s t₁ t₂
  refine ⟨?_, ?_, ?_, ?_, ?_, ?_⟩
  · simp [toggle_light, log_action]
  · simp [toggle_light, log_action, current_power_watts]
  · simp [toggle_door, log_action]
  · simp [toggle_door, log_action, current_power_watts]
  · simp [toggle_light, log_action, append_and_cap_length]
    omega
  · simp [toggle_door, log_action, append_and_cap_length]
    omega

/-- C4: for every route of the form "/device/" ++ id with id a path
segment (no slash), when id is not a registry key the handler renders
the overview view and leaves the state (devices and action log)
unchanged; when id is a key, it renders that device's detail view.  The
handler is a total function, so no error is raised either way. -/
theorem device_route_fallback :
    ∀ (s : AppState) (vs : List View) (id : String),
      (∀ ch ∈ id.data, ch ≠ '/') →
      ((id ∉ registryKeys s →
          route_change s vs ("/device/" ++ id) = (s, [View.overview])) ∧
        (id ∈ registryKeys s →
          route_change s vs ("/device/" ++ id) =
            (s, [View.deviceDetail id (recentFor s.action_log id)]))) := by
  intro s vs id hid
  have hstart :
      startsWithList "/device/".data ("/device/" ++ id).data = true := by
    rw [String.data_append]
    exact startsWithList_self_append _ _
  have h1 : ("/device/" ++ id) ≠ "/" := by
    intro e
    rw [e] at hstart
    exact absurd hstart (by decide)
  have h2 : ("/device/" ++ id) ≠ "/statistics" := by
    intro e
    rw [e] at hstart
    exact absurd hstart (by decide)
  have hlast := lastSegment_device id hid
  constructor
  · intro hmem
    simp [route_change, h1, h2, hstart, hlast, hmem, startsWithList]
  · intro hmem
    simp [route_change, h1, h2, hstart, hlast, hmem, startsWithList]

/-- Witness for C4: the unknown id "zzz" falls back to the overview
view; the known id "light1" renders its detail view. -/
theorem device_route_fallback_witness :
    route_change initState [] ("/device/" ++ "zzz")
      = (initState, [View.overview]) ∧
    route_change initState [] ("/device/" ++ "light1") =
      (initState,
        [View.deviceDetail "light1" (recentFor initState.action_log "light1")]) :=
  ⟨(device_route_fallback initState [] "zzz" (by decide)).1 (by decide),
    (device_route_fallback initState [] "light1" (by decide)).2 (by decide)⟩

/-- C10: a route that is not "/", not "/statistics" and does not start
with "/device/" clears the view list and appends nothing: the resulting
view list is empty (no overview fallback), and the state is unchanged. -/
theorem unmatched_route_empty :
    ∀ (s : AppState) (vs : List View) (route : String),
      route ≠ "/" → route ≠ "/statistics" →
      startsWithList "/device/".data route.data = false →
      route_change s vs route = (s, []) := by
  intro s vs route h1 h2 h3
  simp [route_change, h1, h2, h3]

/-- Witness for C10 at the route "/bogus" from the seeded state with the
overview on the view stack. -/
theorem unmatched_route_empty_witness :
    route_change initState [View.overview] "/bogus" = (initState, []) :=
  unmatched_route_empty initState [View.overview] "/bogus" (by decide)
    (by decide) (by decide)
